-- Spec2Proof.lean : a shallow embedding of the zkbnb read-path resolvers
-- (service/rpc/globalRPC/internal/logic/globalmapHandler/accountAssetForRead.go)
-- and the tree leaf-hash helpers (common/tree/hashHelper.go), together with
-- theorems settling the frozen claims about them.
--
-- The two resolvers, GetLatestAccountInfo and GetLatestAsset, are embedded as
-- pure functions from an environment (the response every external backend
-- would give on this resolution attempt: each backend is called at most once
-- per attempt) to a result paired with the ordered trace of externally
-- visible effects (cache reads and writes, lock operations, tier queries).
-- The Go control flow is mirrored statement by statement, including two
-- places where Go short-variable-declaration scoping shadows an outer err
-- variable; comments at those points record the Go scoping fact the Lean
-- text cannot show.

import Mathlib

namespace Zkbnb

/-! ## Data model (common/model records used by the resolvers) -/

/-- Outcome of a database accessor call: a row, the ErrNotFound sentinel, or
any other backend error (gorm / connectivity), mirroring the three-way
`err == nil` / `err == ErrNotFound` / other tests in the Go callers. -/
inductive DbResult (α : Type) where
  | found : α → DbResult α
  | notFound : DbResult α
  | dbErr : String → DbResult α
deriving DecidableEq

/-- account.Account / account.AccountHistory: the fields the resolver reads
(lines 49-56 of accountAssetForRead.go) are identical on both Go structs, so
one Lean structure serves as both. -/
structure Account where
  AccountIndex : Int
  AccountName : String
  PublicKey : String
  AccountNameHash : String
  L1Address : String
  Nonce : Int
deriving DecidableEq

/-- asset.AccountAsset: also the shape of the asset-history and base
asset-table rows the resolver reads a Balance from. -/
structure AccountAsset where
  AccountIndex : Int
  AssetId : Int
  Balance : String
deriving DecidableEq

/-- mempool.MempoolTx: only the Nonce field is read by the resolver. -/
structure MempoolTx where
  Nonce : Int
deriving DecidableEq

/-- mempool.MempoolTxDetail: the pending-delta record; the resolver reads its
Balance (the embedded base snapshot) and BalanceDelta. -/
structure MempoolDetail where
  Balance : String
  BalanceDelta : String
deriving DecidableEq

/-- Result of one resolution attempt: the Go (value, err) pair, plus a
`crash` outcome modelling a Go runtime panic (nil pointer dereference). -/
inductive RunResult (α : Type) where
  | ok : α → RunResult α
  | fail : String → RunResult α
  | crash : String → RunResult α
deriving DecidableEq

/-! ## Key derivation and numeric helpers -/

/-- Modelled from the spec: KeyDerivation dataKey for an account nonce entry
(util.GetAccountKey, not under src/); deterministic, injective in the index. -/
def GetAccountKey (accountIndex : Int) : String :=
  "cache:account_" ++ toString accountIndex

/-- Modelled from the spec: KeyDerivation dataKey for an (account, asset)
balance entry (util.GetAccountAssetUniqueKey, not under src/). -/
def GetAccountAssetUniqueKey (accountIndex assetId : Int) : String :=
  "cache:accountAsset_" ++ toString accountIndex ++ "_" ++ toString assetId

/-- Modelled from the spec: KeyDerivation lockKey, a pure function of the
data key in a distinct namespace (util.GetLockKey, not under src/). -/
def GetLockKey (key : String) : String :=
  "lock:" ++ key

/-- Modelled from the spec: the generalAssetKind tag passed to the mempool
detail query (commonAsset.GeneralAssetType, not under src/). -/
def GeneralAssetType : Int := 1

/-- Accumulate decimal digits; any non-digit character is a parse failure. -/
def decNatAux : List Char → Nat → Option Nat
  | [], acc => some acc
  | c :: rest, acc =>
    if '0' ≤ c ∧ c ≤ '9' then decNatAux rest (acc * 10 + (c.toNat - 48))
    else none

/-- Decimal big-integer parsing shared by big.Int.SetString(s, 10) and
strconv.ParseInt(s, 10, _): an optional sign followed by at least one digit;
anything else fails. -/
def toIntDec? (s : String) : Option Int :=
  match s.data with
  | [] => none
  | c :: rest =>
    if c = '-' then
      match rest with
      | [] => none
      | _ => Option.map (fun n => -(n : Int)) (decNatAux rest 0)
    else if c = '+' then
      match rest with
      | [] => none
      | _ => Option.map (fun n => (n : Int)) (decNatAux rest 0)
    else Option.map (fun n => (n : Int)) (decNatAux (c :: rest) 0)

/-- Modelled from the spec: NumericDelta.apply (util.ComputeNewBalance for
the general asset kind, not under src/): both operands are decimal
big-integer strings, the result is their exact sum rendered in decimal;
a malformed operand is a fatal computation error. -/
def ComputeNewBalance (balance balanceDelta : String) : Except String String :=
  match toIntDec? balance, toIntDec? balanceDelta with
  | some b, some d => Except.ok (toString (b + d))
  | _, _ => Except.error "[ComputeNewBalance] unable to parse big int"

/-- strconv.ParseInt(s, 10, 64): decimal parse with the 64-bit range check
(Go returns a non-nil error on syntax or range failure, which is all the
caller inspects). -/
def parseInt64 (s : String) : Option Int :=
  match toIntDec? s with
  | none => none
  | some n => if -(2 ^ 63) ≤ n ∧ n < 2 ^ 63 then some n else none

/-! ## Environment and effect trace -/

/-- Decidable equality for Except, needed so concrete witnesses can be
checked by `decide`. -/
instance instDecEqExcept {ε α : Type} [DecidableEq ε] [DecidableEq α] :
    DecidableEq (Except ε α) := fun x y =>
  match x, y with
  | Except.ok a, Except.ok b =>
    if h : a = b then isTrue (by rw [h])
    else isFalse (by intro hc; cases hc; exact h rfl)
  | Except.error a, Except.error b =>
    if h : a = b then isTrue (by rw [h])
    else isFalse (by intro hc; cases hc; exact h rfl)
  | Except.ok _, Except.error _ => isFalse (by intro hc; cases hc)
  | Except.error _, Except.ok _ => isFalse (by intro hc; cases hc)

/-- The responses the external backends would give during one resolution
attempt.  Each backend is consulted at most once per attempt, so a flat
record of responses fully determines the attempt.  `tryLock = none` means
TryAcquireLock returned nil (the lock was obtained); `some e` covers both a
denied lock and a lock-backend error, which the Go code does not distinguish
(TryAcquireLock returns a single error value; modelled from the spec, the
helper itself is not under src/). -/
structure Env where
  accountHistory : DbResult Account
  redisGet : Except String String
  tryLock : Option String
  mempoolTx : DbResult MempoolTx
  assetHistory : DbResult AccountAsset
  baseAsset : DbResult AccountAsset
  mempoolDetail : DbResult MempoolDetail
deriving DecidableEq

/-- One externally visible effect of a resolution attempt, in program order. -/
inductive Eff where
  | cacheGet : String → Eff
  | cacheSetex : String → String → Eff
  | cacheExpire : String → Eff
  | lockTry : String → Eff
  | lockRelease : String → Eff
  | qAccountHistory : Int → Eff
  | qMempoolTx : Int → Eff
  | qAssetHistory : Int → Int → Eff
  | qBaseAsset : Int → Int → Eff
  | qMempoolDetail : Int → Int → Int → Eff
deriving DecidableEq

/-- Effects the spec calls the tiers below the cache, plus the cache write:
lock acquisition, mempool queries, asset-history and base-asset-table
queries, and set-with-expiry.  (The account-history fetch of the account
resolver happens before its cache probe and is not in this set.) -/
def consultsLowerTier : Eff → Bool
  | Eff.lockTry _ => true
  | Eff.qMempoolTx _ => true
  | Eff.qAssetHistory _ _ => true
  | Eff.qBaseAsset _ _ => true
  | Eff.qMempoolDetail _ _ _ => true
  | Eff.cacheSetex _ _ => true
  | _ => false

/-! ## GetLatestAccountInfo (accountAssetForRead.go lines 33-102) -/

/-- Embedding of GetLatestAccountInfo.  Go scoping facts mirrored here:
at line 78 `err = TryAcquireLock(redisLock)` assigns the outer err, but line
80 `l2MempoolTx, err := ...` declares a NEW err inside the else block,
shadowing it; every later `err` in that block is the mempool error.  Hence
the release guard at lines 87-89 (`if err == nil`) sits on the path where
the mempool error IS ErrNotFound and is dead code, and the repopulation
guard at line 95 (`if err == nil`) is true whenever the mempool lookup
succeeded, independent of the lock outcome. -/
def GetLatestAccountInfo (env : Env) (accountIndex : Int) :
    RunResult Account × List Eff :=
  let t0 : List Eff := [Eff.qAccountHistory accountIndex]
  match env.accountHistory with
  | DbResult.notFound =>
    (RunResult.fail "[GetLatestAccountInfoByLock] ErrNotFound. invalid accountIndex", t0)
  | DbResult.dbErr e =>
    (RunResult.fail ("[GetLatestAccountInfoByLock] " ++ e ++ ". invalid accountIndex"), t0)
  | DbResult.found accountHistory =>
    let accountInfo : Account :=
      { AccountIndex := accountHistory.AccountIndex
        AccountName := accountHistory.AccountName
        PublicKey := accountHistory.PublicKey
        AccountNameHash := accountHistory.AccountNameHash
        L1Address := accountHistory.L1Address
        Nonce := accountHistory.Nonce }
    let key := GetAccountKey accountIndex
    let t1 := t0 ++ [Eff.cacheGet key]
    match env.redisGet with
    | Except.error e => (RunResult.fail e, t1)
    | Except.ok nonceStr =>
      if nonceStr ≠ "" then
        match parseInt64 nonceStr with
        | none => (RunResult.fail "strconv.ParseInt: parsing nonce: invalid syntax", t1)
        | some nonce =>
          (RunResult.ok { accountInfo with Nonce := nonce },
           t1 ++ [Eff.cacheExpire key])
      else
        let lockKey := GetLockKey key
        -- line 78: the lock error lands in the outer err and is then
        -- shadowed at line 80; it is never consulted again.
        let t2 := t1 ++ [Eff.lockTry lockKey]
        let t3 := t2 ++ [Eff.qMempoolTx accountIndex]
        match env.mempoolTx with
        | DbResult.dbErr e => (RunResult.fail e, t3)
        | DbResult.notFound =>
          -- lines 86-91: the guard `if err == nil` tests the shadowed
          -- mempool error, which equals ErrNotFound here, so the release
          -- never runs on this exit.
          (RunResult.ok accountInfo, t3)
        | DbResult.found l2MempoolTx =>
          -- lines 93-98: the guard `if err == nil` again tests the shadowed
          -- mempool error (nil on this path), so Setex and Release run
          -- unconditionally, whatever the lock outcome was.
          (RunResult.ok { accountInfo with Nonce := l2MempoolTx.Nonce },
           t3 ++ [Eff.cacheSetex key (toString l2MempoolTx.Nonce),
                  Eff.lockRelease lockKey])

/-! ## GetLatestAsset (accountAssetForRead.go lines 104-195) -/

/-- Embedding of GetLatestAsset.  The lock-attempt error is kept in its own
variable tryLockErr (line 130), so unlike the account resolver the final
repopulation block (lines 188-191) really is guarded by the lock outcome.
The inner accessor errors at lines 132 and 145 shadow the named return err
inside their blocks; the named return is the redis Get error, nil on every
path that reaches line 194. -/
def GetLatestAsset (env : Env) (accountIndex assetId : Int) :
    RunResult AccountAsset × List Eff :=
  let assetInfo : AccountAsset :=
    { AccountIndex := accountIndex, AssetId := assetId, Balance := "0" }
  let key := GetAccountAssetUniqueKey accountIndex assetId
  let lockKey := GetLockKey key
  let t1 : List Eff := [Eff.cacheGet key]
  match env.redisGet with
  | Except.error e => (RunResult.fail e, t1)
  | Except.ok latestBalance =>
    if latestBalance ≠ "" then
      (RunResult.ok { assetInfo with Balance := latestBalance }, t1)
    else
      let tryLockErr := env.tryLock
      let t2 := t1 ++ [Eff.lockTry lockKey]
      -- lines 163-191, shared by every branch that established a base
      -- balance: the mempool-delta overlay and the guarded repopulation.
      let afterBase : String → List Eff → RunResult AccountAsset × List Eff :=
        fun base t =>
          let t := t ++ [Eff.qMempoolDetail accountIndex assetId GeneralAssetType]
          let finish : String → RunResult AccountAsset × List Eff :=
            fun bal =>
              if tryLockErr = none then
                (RunResult.ok { assetInfo with Balance := bal },
                 t ++ [Eff.cacheSetex key bal, Eff.lockRelease lockKey])
              else
                (RunResult.ok { assetInfo with Balance := bal }, t)
          match env.mempoolDetail with
          | DbResult.dbErr e =>
            -- line 175 releases unconditionally, not guarded by tryLockErr.
            (RunResult.fail ("[GetLatestAssetByLock] " ++ e),
             t ++ [Eff.lockRelease lockKey])
          | DbResult.notFound => finish base
          | DbResult.found mempoolDetail =>
            match ComputeNewBalance mempoolDetail.Balance mempoolDetail.BalanceDelta with
            | Except.error e =>
              -- line 183 also releases unconditionally.
              (RunResult.fail e, t ++ [Eff.lockRelease lockKey])
            | Except.ok newBalance => finish newBalance
      let t3 := t2 ++ [Eff.qAssetHistory accountIndex assetId]
      match env.assetHistory with
      | DbResult.dbErr e =>
        if tryLockErr = none then
          (RunResult.fail ("[GetLatestAssetByLock] " ++ e),
           t3 ++ [Eff.lockRelease lockKey])
        else
          (RunResult.fail ("[GetLatestAssetByLock] " ++ e), t3)
      | DbResult.notFound =>
        let t4 := t3 ++ [Eff.qBaseAsset accountIndex assetId]
        match env.baseAsset with
        | DbResult.dbErr e =>
          if tryLockErr = none then
            (RunResult.fail e, t4 ++ [Eff.lockRelease lockKey])
          else
            (RunResult.fail e, t4)
        | DbResult.notFound =>
          -- line 158 runs even when the base-asset lookup returned
          -- ErrNotFound: `assetInfo.Balance = accountAssetInfo.Balance`
          -- dereferences the nil record, a Go runtime panic.
          (RunResult.crash "runtime error: invalid memory address or nil pointer dereference",
           t4)
        | DbResult.found accountAssetInfo => afterBase accountAssetInfo.Balance t4
      | DbResult.found resAccountSingleAsset => afterBase resAccountSingleAsset.Balance t3

/-! ## Leaf-hash helpers (common/tree/hashHelper.go) -/

/-- The MiMC hasher object (gnark-crypto mimc.NewMiMC): a byte-absorbing
state machine.  Only the state discipline matters to the claims; the digest
itself is modelled below. -/
structure MiMC where
  absorbed : List Nat
deriving DecidableEq

/-- Modelled from the spec: the external collision-resistant MiMC digest, a
pure function of the absorbed byte stream (the precise permutation lives in
gnark-crypto, outside this repository). -/
def mimcDigest (bs : List Nat) : List Nat :=
  [bs.foldl (fun a b => (a * 131 + b) % 18446744073709551616) 7]

/-- mimc.NewMiMC(): a fresh hasher with an empty absorbed stream, whatever
hasher states other calls may have left behind. -/
def MiMC.new : MiMC := { absorbed := [] }

/-- hFunc.Reset(): clears the absorbed stream. -/
def MiMC.reset (_ : MiMC) : MiMC := { absorbed := [] }

/-- hFunc.Write(bs): absorbs bytes. -/
def MiMC.write (h : MiMC) (bs : List Nat) : MiMC := { absorbed := h.absorbed ++ bs }

/-- hFunc.Sum(nil): the digest of the absorbed stream. -/
def MiMC.sum (h : MiMC) : List Nat := mimcDigest h.absorbed

/-- go-ethereum common.FromHex: strips an optional 0x, left-pads an odd
string, and decodes hex pairs (decoding stops at an invalid pair, mirroring
the error-discarding Hex2Bytes). -/
def hexDigit (c : Char) : Option Nat :=
  if '0' ≤ c ∧ c ≤ '9' then some (c.toNat - 48)
  else if 'a' ≤ c ∧ c ≤ 'f' then some (c.toNat - 87)
  else if 'A' ≤ c ∧ c ≤ 'F' then some (c.toNat - 55)
  else none

/-- Decode a character list two hex digits at a time. -/
def hexPairs : List Char → List Nat
  | c1 :: c2 :: rest =>
    match hexDigit c1, hexDigit c2 with
    | some a, some b => (16 * a + b) :: hexPairs rest
    | _, _ => []
  | _ => []

/-- go-ethereum common.FromHex (not under src/): deterministic hex decoding
used for account-name hashes and NFT content hashes. -/
def FromHex (s : String) : List Nat :=
  let cs := s.data
  let cs := if cs.take 2 = ['0', 'x'] then cs.drop 2 else cs
  let cs := if cs.length % 2 = 1 then '0' :: cs else cs
  hexPairs cs

/-- Modelled from the spec: util.WriteInt64IntoBuf (not under src/), the
fixed-width serialization of an int64 into the leaf buffer; eight big-endian
bytes of the two's-complement value. -/
def WriteInt64IntoBuf (n : Int) : List Nat :=
  let u : Nat := (n % (2 ^ 64)).toNat
  [u / 2 ^ 56 % 256, u / 2 ^ 48 % 256, u / 2 ^ 40 % 256, u / 2 ^ 32 % 256,
   u / 2 ^ 24 % 256, u / 2 ^ 16 % 256, u / 2 ^ 8 % 256, u % 256]

/-- Modelled from the spec: util.WriteStringBigIntIntoBuf (not under src/),
which validates a decimal big-integer string and serializes it into the leaf
buffer; a malformed operand is an error. -/
def WriteStringBigIntIntoBuf (s : String) : Except String (List Nat) :=
  match toIntDec? s with
  | none => Except.error "[WriteStringBigIntIntoBuf] unable to parse big int"
  | some n => Except.ok ((toString n).data.map Char.toNat)

/-- Modelled from the spec: util.WritePkIntoBuf (not under src/), which
parses the serialized public key and writes its bytes; malformed keys fail. -/
def WritePkIntoBuf (pk : String) : Except String (List Nat) :=
  let bs := FromHex pk
  if bs.length = 32 then Except.ok bs
  else Except.error "[WritePkIntoBuf] invalid public key"

/-- Modelled from the spec: util.WriteAddressIntoBuf (not under src/), which
validates an L1 address and writes its bytes; malformed addresses fail. -/
def WriteAddressIntoBuf (addr : String) : Except String (List Nat) :=
  let bs := FromHex addr
  if bs.length = 20 then Except.ok bs
  else Except.error "[WriteAddressIntoBuf] invalid address"

/-- Embedding of ComputeAccountLeafHash (hashHelper.go lines 28-48).  The
`ambient` argument stands for any hasher state a previous invocation could
have left behind; the source constructs a fresh hasher with NewMiMC and
never reads ambient state, which is what claim C10 is about.  Go writes the
nonce into the buffer before checking the pk error (lines 37-39); the buffer
is discarded on that error return, so only the error outcome is observable. -/
def ComputeAccountLeafHash (ambient : MiMC) (accountNameHash pk : String)
    (nonce : Int) (assetRoot : List Nat) : Except String (List Nat) :=
  let hFunc := MiMC.new
  let buf := FromHex accountNameHash
  match WritePkIntoBuf pk with
  | Except.error e => Except.error e
  | Except.ok pkBytes =>
    let buf := buf ++ pkBytes ++ WriteInt64IntoBuf nonce
    let buf := buf ++ assetRoot
    let hFunc := hFunc.reset
    let hFunc := hFunc.write buf
    Except.ok hFunc.sum

/-- Embedding of ComputeAccountAssetLeafHash (hashHelper.go lines 50-68). -/
def ComputeAccountAssetLeafHash (ambient : MiMC) (balance lpAmount : String) :
    Except String (List Nat) :=
  let hFunc := MiMC.new
  match WriteStringBigIntIntoBuf balance with
  | Except.error e => Except.error e
  | Except.ok b1 =>
    match WriteStringBigIntIntoBuf lpAmount with
    | Except.error e => Except.error e
    | Except.ok b2 =>
      let hFunc := hFunc.write (b1 ++ b2)
      Except.ok hFunc.sum

/-- Embedding of ComputeLiquidityAssetLeafHash (hashHelper.go lines 70-99). -/
def ComputeLiquidityAssetLeafHash (ambient : MiMC) (assetAId : Int)
    (assetA : String) (assetBId : Int) (assetB : String) (lpAmount : String) :
    Except String (List Nat) :=
  let hFunc := MiMC.new
  let buf := WriteInt64IntoBuf assetAId
  match WriteStringBigIntIntoBuf assetA with
  | Except.error e => Except.error e
  | Except.ok bA =>
    let buf := buf ++ bA ++ WriteInt64IntoBuf assetBId
    match WriteStringBigIntIntoBuf assetB with
    | Except.error e => Except.error e
    | Except.ok bB =>
      let buf := buf ++ bB
      match WriteStringBigIntIntoBuf lpAmount with
      | Except.error e => Except.error e
      | Except.ok bLp =>
        let hFunc := hFunc.write (buf ++ bLp)
        Except.ok hFunc.sum

/-- Embedding of ComputeNftAssetLeafHash (hashHelper.go lines 101-134). -/
def ComputeNftAssetLeafHash (ambient : MiMC) (creatorIndex : Int)
    (nftContentHash : String) (assetId : Int) (assetAmount : String)
    (nftL1Address nftL1TokenId : String) (creatorTreasuryRate : Int) :
    Except String (List Nat) :=
  let hFunc := MiMC.new
  let buf := WriteInt64IntoBuf creatorIndex
  let buf := buf ++ FromHex nftContentHash
  match WriteAddressIntoBuf nftL1Address with
  | Except.error e => Except.error e
  | Except.ok bAddr =>
    let buf := buf ++ bAddr
    match WriteStringBigIntIntoBuf nftL1TokenId with
    | Except.error e => Except.error e
    | Except.ok bTok =>
      let buf := buf ++ bTok ++ WriteInt64IntoBuf assetId
      match WriteStringBigIntIntoBuf assetAmount with
      | Except.error e => Except.error e
      | Except.ok bAmt =>
        let buf := buf ++ bAmt ++ WriteInt64IntoBuf creatorTreasuryRate
        let hFunc := hFunc.write buf
        Except.ok hFunc.sum


/-! ## Concrete fixtures used by closed theorems and witnesses -/

def accRow : Account :=
  { AccountIndex := 1
    AccountName := "acc"
    PublicKey := "pk"
    AccountNameHash := "nh"
    L1Address := "l1"
    Nonce := 5 }

def assetRow : AccountAsset :=
  { AccountIndex := 1, AssetId := 2, Balance := "55" }

def envBase : Env :=
  { accountHistory := DbResult.found accRow
    redisGet := Except.ok ""
    tryLock := some "lock not acquired"
    mempoolTx := DbResult.found { Nonce := 7 }
    assetHistory := DbResult.notFound
    baseAsset := DbResult.notFound
    mempoolDetail := DbResult.notFound }

/-! ## Claim theorems -/

/-- C1: counterexample-style evaluation at the failing input: in the account
resolver a failed lock acquisition does not prevent the cache write, because
the guard at line 95 tests the shadowed mempool error.  With the lock denied
and a pending mempool transaction present, Setex still appears in the trace. -/
theorem C1_account_cache_write_despite_failed_lock :
    envBase.tryLock ≠ none ∧
    Eff.cacheSetex (GetAccountKey 1) "7" ∈ (GetLatestAccountInfo envBase 1).2 := by
  decide

/-- C2: the release discipline is not release-iff-acquired.  Left conjunct:
in the account resolver with the lock acquired and no pending mempool
transaction, the acquired lock is never released (lines 86-91 are dead
code).  Right conjunct: in the asset resolver with the lock denied and a
mempool storage error, a release is performed although acquisition failed
(line 175 releases unconditionally). -/
theorem C2_release_not_iff_acquired :
    (({ envBase with tryLock := none, mempoolTx := DbResult.notFound } : Env).tryLock = none ∧
     Eff.lockTry (GetLockKey (GetAccountKey 1)) ∈
       (GetLatestAccountInfo { envBase with tryLock := none, mempoolTx := DbResult.notFound } 1).2 ∧
     Eff.lockRelease (GetLockKey (GetAccountKey 1)) ∉
       (GetLatestAccountInfo { envBase with tryLock := none, mempoolTx := DbResult.notFound } 1).2) ∧
    (({ envBase with assetHistory := DbResult.found assetRow, mempoolDetail := DbResult.dbErr "timeout" } : Env).tryLock ≠ none ∧
     Eff.lockRelease (GetLockKey (GetAccountAssetUniqueKey 1 2)) ∈
       (GetLatestAsset { envBase with assetHistory := DbResult.found assetRow, mempoolDetail := DbResult.dbErr "timeout" } 1 2).2) := by
  decide

/-- C3: with a cache miss, asset history not found, base asset table not
found and no pending delta, GetLatestAsset does not return the record with
Balance zero: line 158 dereferences the nil base-table record and the call
panics. -/
theorem C3_double_notfound_crashes :
    (GetLatestAsset envBase 1 2).1 =
      RunResult.crash "runtime error: invalid memory address or nil pointer dereference" ∧
    (GetLatestAsset envBase 1 2).1 ≠
      RunResult.ok { AccountIndex := 1, AssetId := 2, Balance := "0" } := by
  decide

/-- C4: on a cache miss whose base-balance step succeeds, a pending mempool
delta with base B and delta D makes GetLatestAsset return exactly the
decimal rendering of B + D, computed over unbounded integers from the base
embedded in the delta record itself: the history or base-table row is
universally quantified and absent from the conclusion. -/
theorem C4_pending_delta_exact_sum (env : Env) (accountIndex assetId : Int)
    (b d : Int) (rec : MempoolDetail) (baseRow : AccountAsset)
    (hmiss : env.redisGet = Except.ok "")
    (hbase : env.assetHistory = DbResult.found baseRow ∨
      (env.assetHistory = DbResult.notFound ∧ env.baseAsset = DbResult.found baseRow))
    (hmd : env.mempoolDetail = DbResult.found rec)
    (hb : toIntDec? rec.Balance = some b)
    (hd : toIntDec? rec.BalanceDelta = some d) :
    (GetLatestAsset env accountIndex assetId).1 =
      RunResult.ok { AccountIndex := accountIndex, AssetId := assetId,
                     Balance := toString (b + d) } := by
  rcases hbase with hbase | ⟨hbase1, hbase2⟩
  · rcases htl : env.tryLock with _ | e <;>
      simp [GetLatestAsset, hmiss, hmd, htl, hbase, ComputeNewBalance, hb, hd]
  · rcases htl : env.tryLock with _ | e <;>
      simp [GetLatestAsset, hmiss, hmd, htl, hbase1, hbase2, ComputeNewBalance, hb, hd]

/-- C5: on a nonce cache miss with the account row found, a pending mempool
transaction makes GetLatestAccountInfo return the pending nonce verbatim
(replacing, never merging with, the persisted one), and with no pending
transaction it returns the persisted history record unchanged, without
error. -/
theorem C5_nonce_pending_replaces_persisted (env : Env) (accountIndex : Int)
    (h : Account)
    (hha : env.accountHistory = DbResult.found h)
    (hmiss : env.redisGet = Except.ok "") :
    (∀ p, env.mempoolTx = DbResult.found p →
      (GetLatestAccountInfo env accountIndex).1 =
        RunResult.ok { h with Nonce := p.Nonce }) ∧
    (env.mempoolTx = DbResult.notFound →
      (GetLatestAccountInfo env accountIndex).1 = RunResult.ok h) := by
  constructor
  · intro p hp
    simp [GetLatestAccountInfo, hha, hmiss, hp]
  · intro hnp
    simp [GetLatestAccountInfo, hha, hmiss, hnp]

/-- C5 witness: at a concrete environment, the pending nonce 7 replaces the
persisted nonce 5, and with no pending record the persisted row comes back. -/
theorem C5_witness :
    (GetLatestAccountInfo envBase 1).1 = RunResult.ok { accRow with Nonce := 7 } ∧
    (GetLatestAccountInfo { envBase with mempoolTx := DbResult.notFound } 1).1 =
      RunResult.ok accRow :=
  ⟨(C5_nonce_pending_replaces_persisted envBase 1 accRow rfl rfl).1 { Nonce := 7 } rfl,
   (C5_nonce_pending_replaces_persisted
      { envBase with mempoolTx := DbResult.notFound } 1 accRow rfl rfl).2 rfl⟩

/-- C6: the lock outcome is invisible in the returned (value, error) pair of
both resolvers: two environments differing only in the lock-acquisition
response produce identical results, so a denied or failed lock neither
surfaces an error nor prevents the tier-computed value from being returned;
it can affect at most the cache-write effects. -/
theorem C6_lock_outcome_never_changes_result (env : Env)
    (o1 o2 : Option String) (accountIndex assetId : Int) :
    (GetLatestAccountInfo { env with tryLock := o1 } accountIndex).1 =
      (GetLatestAccountInfo { env with tryLock := o2 } accountIndex).1 ∧
    (GetLatestAsset { env with tryLock := o1 } accountIndex assetId).1 =
      (GetLatestAsset { env with tryLock := o2 } accountIndex assetId).1 := by
  refine ⟨rfl, ?_⟩
  obtain ⟨ah, rg, tl, mp, ahist, ba, md⟩ := env
  cases rg with
  | error e => rfl
  | ok v =>
    by_cases hv : v = ""
    · subst hv
      cases ahist <;> cases ba <;> cases md <;>
        first
        | rfl
        | (cases o1 <;> cases o2 <;>
            simp [GetLatestAsset] <;>
            rcases ComputeNewBalance _ _ with _ | _ <;> simp)
    · simp [GetLatestAsset, hv]

/-- C7: when applying the pending delta fails on a malformed operand, the
asset resolver surfaces the computation error and writes nothing to the
cache: no set-with-expiry effect occurs in the trace of that call. -/
theorem C7_compute_error_no_cache_write (env : Env) (accountIndex assetId : Int)
    (rec : MempoolDetail) (baseRow : AccountAsset) (e : String)
    (hmiss : env.redisGet = Except.ok "")
    (hbase : env.assetHistory = DbResult.found baseRow ∨
      (env.assetHistory = DbResult.notFound ∧ env.baseAsset = DbResult.found baseRow))
    (hmd : env.mempoolDetail = DbResult.found rec)
    (hbad : ComputeNewBalance rec.Balance rec.BalanceDelta = Except.error e) :
    (GetLatestAsset env accountIndex assetId).1 = RunResult.fail e ∧
    ∀ k v, Eff.cacheSetex k v ∉ (GetLatestAsset env accountIndex assetId).2 := by
  rcases hbase with hbase | ⟨hbase1, hbase2⟩
  · rcases htl : env.tryLock with _ | le <;>
      simp [GetLatestAsset, hmiss, hmd, htl, hbase, hbad]
  · rcases htl : env.tryLock with _ | le <;>
      simp [GetLatestAsset, hmiss, hmd, htl, hbase1, hbase2, hbad]

/-- C7 witness: a malformed BalanceDelta "abc" fails the call with the
computation error and leaves no set-with-expiry in the trace. -/
theorem C7_witness :
    (GetLatestAsset { envBase with assetHistory := DbResult.found assetRow, mempoolDetail := DbResult.found { Balance := "55", BalanceDelta := "abc" } } 1 2).1 =
      RunResult.fail "[ComputeNewBalance] unable to parse big int" ∧
    Eff.cacheSetex (GetAccountAssetUniqueKey 1 2) "55" ∉
      (GetLatestAsset { envBase with assetHistory := DbResult.found assetRow, mempoolDetail := DbResult.found { Balance := "55", BalanceDelta := "abc" } } 1 2).2 := by
  have h := C7_compute_error_no_cache_write
    { envBase with assetHistory := DbResult.found assetRow,
                   mempoolDetail := DbResult.found { Balance := "55", BalanceDelta := "abc" } }
    1 2 { Balance := "55", BalanceDelta := "abc" } assetRow
    "[ComputeNewBalance] unable to parse big int"
    rfl (Or.inl rfl) rfl (by decide)
  exact ⟨h.1, h.2 (GetAccountAssetUniqueKey 1 2) "55"⟩

/-- C8 counterexample: a cache hit whose entry is the malformed nonce "abc"
makes the account resolver return a parse error, not the cached value, so
the claim as stated fails at this input (no lower tier is consulted, but the
cached value is not returned). -/
theorem C8_counterexample_malformed_cached_nonce :
    ({ envBase with redisGet := Except.ok "abc" } : Env).redisGet = Except.ok "abc" ∧
    ("abc" : String) ≠ "" ∧
    (GetLatestAccountInfo { envBase with redisGet := Except.ok "abc" } 1).1 =
      RunResult.fail "strconv.ParseInt: parsing nonce: invalid syntax" := by
  decide

/-- C8 amended: on an unexpired cache hit neither resolver consults any
lower tier (no lock attempt, no mempool, asset-history or base-table query,
no set-with-expiry); the asset resolver returns the cached value verbatim,
and the account resolver returns it whenever it parses as a 64-bit integer
(a malformed cached nonce is a fatal parse error, still without consulting
any lower tier). -/
theorem C8_hit_consults_no_lower_tier (env : Env) (accountIndex assetId : Int)
    (v : String)
    (hhit : env.redisGet = Except.ok v) (hne : v ≠ "") :
    (((GetLatestAccountInfo env accountIndex).2.filter consultsLowerTier = []) ∧
     ∀ h n, env.accountHistory = DbResult.found h → parseInt64 v = some n →
       (GetLatestAccountInfo env accountIndex).1 = RunResult.ok { h with Nonce := n }) ∧
    ((GetLatestAsset env accountIndex assetId).1 =
       RunResult.ok { AccountIndex := accountIndex, AssetId := assetId, Balance := v } ∧
     (GetLatestAsset env accountIndex assetId).2.filter consultsLowerTier = []) := by
  refine ⟨⟨?_, ?_⟩, ?_, ?_⟩
  · rcases hah : env.accountHistory with h | _ | e <;>
      simp [GetLatestAccountInfo, hah, hhit, hne, consultsLowerTier] <;>
      rcases parseInt64 v with _ | n <;> simp [consultsLowerTier]
  · intro h n hah hn
    simp [GetLatestAccountInfo, hah, hhit, hne, hn]
  · simp [GetLatestAsset, hhit, hne]
  · simp [GetLatestAsset, hhit, hne, consultsLowerTier]

/-- C8 witness: with the well-formed cached nonce "9" and cached balance
"9", both resolvers answer from the cache alone. -/
theorem C8_witness :
    (GetLatestAccountInfo { envBase with redisGet := Except.ok "9" } 1).2.filter consultsLowerTier = [] ∧
    (GetLatestAccountInfo { envBase with redisGet := Except.ok "9" } 1).1 =
      RunResult.ok { accRow with Nonce := 9 } ∧
    (GetLatestAsset { envBase with redisGet := Except.ok "9" } 1 2).1 =
      RunResult.ok { AccountIndex := 1, AssetId := 2, Balance := "9" } ∧
    (GetLatestAsset { envBase with redisGet := Except.ok "9" } 1 2).2.filter consultsLowerTier = [] := by
  have h := C8_hit_consults_no_lower_tier
    { envBase with redisGet := Except.ok "9" } 1 2 "9" rfl (by decide)
  exact ⟨h.1.1, h.1.2 accRow 9 rfl (by decide), h.2.1, h.2.2⟩

/-- C9: a backend error from the cache get is propagated verbatim as the
fatal result of the call in both resolvers, and no lower tier is consulted:
the error is never treated as a miss. -/
theorem C9_cache_backend_error_propagates (env : Env)
    (accountIndex assetId : Int) (e : String) (h : Account)
    (hha : env.accountHistory = DbResult.found h)
    (he : env.redisGet = Except.error e) :
    ((GetLatestAccountInfo env accountIndex).1 = RunResult.fail e ∧
     (GetLatestAccountInfo env accountIndex).2.filter consultsLowerTier = []) ∧
    ((GetLatestAsset env accountIndex assetId).1 = RunResult.fail e ∧
     (GetLatestAsset env accountIndex assetId).2.filter consultsLowerTier = []) := by
  refine ⟨⟨?_, ?_⟩, ?_, ?_⟩ <;>
    simp [GetLatestAccountInfo, GetLatestAsset, hha, he, consultsLowerTier]

/-- C9 witness: a concrete connectivity error from the cache is returned by
both resolvers with no lower-tier effect in either trace. -/
theorem C9_witness :
    (GetLatestAccountInfo { envBase with redisGet := Except.error "connection reset" } 1).1 =
      RunResult.fail "connection reset" ∧
    (GetLatestAsset { envBase with redisGet := Except.error "connection reset" } 1 2).1 =
      RunResult.fail "connection reset" ∧
    (GetLatestAsset { envBase with redisGet := Except.error "connection reset" } 1 2).2.filter consultsLowerTier = [] := by
  have h := C9_cache_backend_error_propagates
    { envBase with redisGet := Except.error "connection reset" } 1 2
    "connection reset" accRow rfl rfl
  exact ⟨h.1.1, h.2.1, h.2.2⟩

/-- C10: the four leaf-hash functions are deterministic pure transforms:
their output, error outcome included, does not depend on any ambient hasher
state left by earlier invocations, because each constructs a fresh MiMC
hasher and reads nothing else; equal inputs therefore give byte-identical
digests across calls. -/
theorem C10_leaf_hashes_deterministic (a1 a2 : MiMC)
    (accountNameHash pk : String) (nonce : Int) (assetRoot : List Nat)
    (balance lpAmount : String)
    (assetAId : Int) (assetA : String) (assetBId : Int) (assetB lp2 : String)
    (creatorIndex : Int) (nftContentHash : String) (assetId : Int)
    (assetAmount nftL1Address nftL1TokenId : String) (creatorTreasuryRate : Int) :
    ComputeAccountLeafHash a1 accountNameHash pk nonce assetRoot =
      ComputeAccountLeafHash a2 accountNameHash pk nonce assetRoot ∧
    ComputeAccountAssetLeafHash a1 balance lpAmount =
      ComputeAccountAssetLeafHash a2 balance lpAmount ∧
    ComputeLiquidityAssetLeafHash a1 assetAId assetA assetBId assetB lp2 =
      ComputeLiquidityAssetLeafHash a2 assetAId assetA assetBId assetB lp2 ∧
    ComputeNftAssetLeafHash a1 creatorIndex nftContentHash assetId assetAmount
        nftL1Address nftL1TokenId creatorTreasuryRate =
      ComputeNftAssetLeafHash a2 creatorIndex nftContentHash assetId assetAmount
        nftL1Address nftL1TokenId creatorTreasuryRate :=
  ⟨rfl, rfl, rfl, rfl⟩

/-- C4 witness: base snapshot far beyond 64-bit width: B plus D with
B = 10 to the 20 and D = -1 yields the exact twenty-nines string, via the
delta-record base, while the history row holds the unrelated balance 55. -/
theorem C4_witness :
    ({ envBase with assetHistory := DbResult.found assetRow, mempoolDetail := DbResult.found { Balance := "100000000000000000000", BalanceDelta := "-1" } } : Env).redisGet = Except.ok "" ∧
    (GetLatestAsset { envBase with assetHistory := DbResult.found assetRow, mempoolDetail := DbResult.found { Balance := "100000000000000000000", BalanceDelta := "-1" } } 1 2).1 =
      RunResult.ok { AccountIndex := 1, AssetId := 2, Balance := "99999999999999999999" } := by
  refine ⟨rfl, ?_⟩
  have h := C4_pending_delta_exact_sum
    { envBase with assetHistory := DbResult.found assetRow,
                   mempoolDetail := DbResult.found { Balance := "100000000000000000000", BalanceDelta := "-1" } }
    1 2 100000000000000000000 (-1)
    { Balance := "100000000000000000000", BalanceDelta := "-1" } assetRow
    rfl (Or.inl rfl) rfl (by decide) (by decide)
  rw [h]
  decide

end Zkbnb
